import Mathlib

/-!
Shallow embedding of the four CLI adapter scripts under
`packages/hft-tools/python` (`nautilus_adapter/backtest.py`,
`nautilus_adapter/data.py`, `optuna_adapter/optimizer.py`,
`optuna_adapter/study.py`).

Each adapter reads one JSON document from standard input, extracts fields,
calls a (placeholder) domain function, and prints one JSON document; any
exception raised in the `try` block is converted to an error envelope
`{status: "error", error: str(e), type: type(e).__name__}` followed by
`sys.exit(1)`.

The embedding models:
  - JSON values as the inductive `Json`; JSON numbers are kept exact as
    `mantissa / 10 ^ exp` pairs (`JNum`), transcribed digit-for-digit from
    the Python source literals;
  - Python exceptions as `Except PyError`, where a `PyError` records the
    exception class name and message;
  - the `json.loads(sys.stdin.read())` boundary as a `Py Json` parameter to
    the pipeline of each adapter: a standard-input text that is not valid JSON
    corresponds to `.error (JSONDecodeError)`, a parsed document to `.ok j`;
  - a whole process run as `main : Py Json → List Json × Nat`, returning
    the list of lines printed to standard output and the process exit code.
-/

namespace HftAdapters

/-- Exact JSON number: the value `mant / 10 ^ exp`.  Python source literals
are transcribed digit-for-digit (`0.15` becomes `⟨15, 2⟩`, `245` becomes
`⟨245, 0⟩`), so no floating-point rounding enters the model. -/
structure JNum where
  mant : Int
  exp : Nat
deriving Repr, DecidableEq

/-- Value-level order on `JNum` (cross-multiplied), mirroring Python numeric
comparison. -/
def JNum.ble (a b : JNum) : Bool :=
  decide (a.mant * (10 : Int) ^ b.exp ≤ b.mant * (10 : Int) ^ a.exp)

/-- Value-level equality on `JNum`, mirroring Python `==` on numbers. -/
def JNum.eqv (a b : JNum) : Prop :=
  a.mant * (10 : Int) ^ b.exp = b.mant * (10 : Int) ^ a.exp

instance (a b : JNum) : Decidable (JNum.eqv a b) := by
  unfold JNum.eqv; infer_instance

/-- Exact addition of JSON numbers (common denominator `10 ^ (a.exp + b.exp)`). -/
def JNum.add (a b : JNum) : JNum :=
  ⟨a.mant * (10 : Int) ^ b.exp + b.mant * (10 : Int) ^ a.exp, a.exp + b.exp⟩

/-- A JSON document, as produced by the Python `json` module: null, booleans,
numbers, strings, arrays, and objects (ordered key/value lists). -/
inductive Json where
  | null : Json
  | bool : Bool → Json
  | num : JNum → Json
  | str : String → Json
  | arr : List Json → Json
  | obj : List (String × Json) → Json
deriving Repr

/-- First-match key lookup in the field list of an object (Python `dict` lookup;
`json.loads` keeps the last duplicate key, but no adapter input in question
has duplicates, and first-match equals only-match on duplicate-free lists). -/
def lookupField : List (String × Json) → String → Option Json
  | [], _ => none
  | (k, v) :: rest, key => if k = key then some v else lookupField rest key

/-- Key lookup on a `Json` value: `some` only when the value is an object
holding the key. -/
def jsonLookup (j : Json) (key : String) : Option Json :=
  match j with
  | .obj fields => lookupField fields key
  | _ => none

/-- Python truthiness of a JSON value (`None`, `False`, `0`, `""`, `[]`,
`{}` are falsy). -/
def pyTruthy : Json → Bool
  | .null => false
  | .bool b => b
  | .num n => n.mant ≠ 0
  | .str s => s ≠ ""
  | .arr xs => !xs.isEmpty
  | .obj fs => !fs.isEmpty

/-- Python `a or b`. -/
def pyOr (a b : Json) : Json := if pyTruthy a then a else b

/-- Python `j == s` for a string literal `s`: true exactly when `j` is that
string. -/
def eqStr (j : Json) (s : String) : Bool :=
  match j with
  | .str t => t = s
  | _ => false

/-- A raised Python exception: class name (`type(e).__name__`) and message
(`str(e)`). -/
structure PyError where
  type : String
  msg : String
deriving Repr, DecidableEq

/-- Computations in the `try` block of an adapter: either a value or a raised
exception. -/
abbrev Py (α : Type) := Except PyError α

/-- Python `d.get(key, default)`: on a dict, the stored value or the default;
on any non-dict value, raises `AttributeError`. -/
def pyGetD (j : Json) (key : String) (dflt : Json) : Py Json :=
  match j with
  | .obj fields => .ok ((lookupField fields key).getD dflt)
  | _ => .error ⟨"AttributeError", "object has no attribute get"⟩

/-- Python `d.get(key)` (default `None`). -/
def pyGet (j : Json) (key : String) : Py Json := pyGetD j key .null

/-- Python `d[key]`: `KeyError` when the key is absent, `TypeError` when the
value is not a dict. -/
def pyIndex (j : Json) (key : String) : Py Json :=
  match j with
  | .obj fields =>
    match lookupField fields key with
    | some v => .ok v
    | none => .error ⟨"KeyError", key⟩
  | _ => .error ⟨"TypeError", "object is not subscriptable"⟩

/-- The shared `except Exception` envelope each adapter prints before exiting
with code 1. -/
def errorEnvelope (e : PyError) : Json :=
  .obj [("status", .str "error"), ("error", .str e.msg), ("type", .str e.type)]

/-- An ASCII single-quote character, kept out of string literals. -/
def squoteChar : String := String.singleton (Char.ofNat 39)

/-- Python `str()` of the atomic JSON values interpolated into f-strings
(`None`, `True`/`False`, numbers, strings); container rendering is collapsed
to a marker, as no adapter interpolates a container into a message. -/
def pyStr : Json → String
  | .null => "None"
  | .bool true => "True"
  | .bool false => "False"
  | .num n => if n.exp = 0 then toString n.mant
              else toString n.mant ++ "e-" ++ toString n.exp
  | .str s => s
  | .arr _ => "<list>"
  | .obj _ => "<dict>"

/-- Maximum of a list of JSON numbers, as Python `max` computes it over the
optimization history values. -/
def listMaxJN : List JNum → Option JNum
  | [] => none
  | x :: xs =>
    match listMaxJN xs with
    | none => some x
    | some m => some (if JNum.ble m x then x else m)

/-- Value of one optimization-history entry: its `value` field, when numeric. -/
def entryValue (j : Json) : Option JNum :=
  match jsonLookup j "value" with
  | some (.num q) => some q
  | _ => none

/-- Values of all optimization-history entries, `none` if any entry lacks a
numeric `value`. -/
def valuesOf : List Json → Option (List JNum)
  | [] => some []
  | x :: xs =>
    match entryValue x, valuesOf xs with
    | some v, some vs => some (v :: vs)
    | _, _ => none

/-- Values of the `optimization_history` array of a result document. -/
def historyValues (r : Json) : Option (List JNum) :=
  match jsonLookup r "optimization_history" with
  | some (.arr xs) => valuesOf xs
  | _ => none

/-- Length of the `optimization_history` array of a result document. -/
def historyLen (r : Json) : Option Nat :=
  match jsonLookup r "optimization_history" with
  | some (.arr xs) => some xs.length
  | _ => none

/-- Numeric field of the `statistics` object of a result document. -/
def statNum (r : Json) (key : String) : Option JNum :=
  match jsonLookup r "statistics" with
  | some st =>
    match jsonLookup st key with
    | some (.num q) => some q
    | _ => none
  | none => none

namespace NautilusBacktest

/-- Result dictionary literal of `run_backtest` (backtest.py lines 54-104),
parameterized by the three non-constant entries: the extracted strategy name
and the two dates read from `data_config`. -/
def backtestResult (nm sd ed : Json) : Json :=
  .obj [
    ("status", .str "success"),
    ("strategy_name", nm),
    ("period", .obj [("start", sd), ("end", ed)]),
    ("performance", .obj [
      ("total_return", .num ⟨15, 2⟩),
      ("sharpe_ratio", .num ⟨18, 1⟩),
      ("sortino_ratio", .num ⟨21, 1⟩),
      ("max_drawdown", .num ⟨5, 2⟩),
      ("profit_factor", .num ⟨23, 1⟩),
      ("win_rate", .num ⟨62, 2⟩),
      ("total_trades", .num ⟨245, 0⟩),
      ("winning_trades", .num ⟨152, 0⟩),
      ("losing_trades", .num ⟨93, 0⟩),
      ("average_win", .num ⟨15050, 2⟩),
      ("average_loss", .num ⟨-8530, 2⟩),
      ("largest_win", .num ⟨58000, 2⟩),
      ("largest_loss", .num ⟨-32000, 2⟩)]),
    ("metrics_by_period", .obj [
      ("daily", .obj [("avg_return", .num ⟨12, 4⟩), ("volatility", .num ⟨15, 3⟩)]),
      ("weekly", .obj [("avg_return", .num ⟨84, 4⟩), ("volatility", .num ⟨42, 3⟩)])]),
    ("risk_metrics", .obj [
      ("var_95", .num ⟨25, 3⟩),
      ("cvar_95", .num ⟨32, 3⟩),
      ("max_consecutive_losses", .num ⟨5, 0⟩),
      ("max_consecutive_wins", .num ⟨8, 0⟩)]),
    ("execution_stats", .obj [
      ("avg_slippage", .num ⟨15, 5⟩),
      ("total_commission", .num ⟨24550, 2⟩)]),
    ("warnings", .arr [
      .str "Backtest uses simulated data - results may not reflect live performance"]),
    ("trade_log_summary", .obj [
      ("first_trade", sd),
      ("last_trade", ed),
      ("avg_holding_time_seconds", .num ⟨25, 0⟩)])]

/-- Embedding of `run_backtest` (backtest.py lines 22-106): evaluates
`strategy.get("metadata", {}).get("name", "unknown")`,
`data_config["startDate"]` and `data_config["endDate"]` in source order, then
returns the placeholder result dictionary. -/
def run_backtest (strategy data_config _config : Json) : Py Json := do
  let metadata ← pyGetD strategy "metadata" (Json.obj [])
  let nm ← pyGetD metadata "name" (Json.str "unknown")
  let sd ← pyIndex data_config "startDate"
  let ed ← pyIndex data_config "endDate"
  pure (backtestResult nm sd ed)

/-- Body of the `try` block of backtest.py `main` (lines 110-122): parse
stdin, extract `strategy`, `dataConfig`, `config` with `{}` defaults, run the
backtest. -/
def body (stdin : Py Json) : Py Json := do
  let input ← stdin
  let strategy ← pyGetD input "strategy" (Json.obj [])
  let data_config ← pyGetD input "dataConfig" (Json.obj [])
  let config ← pyGetD input "config" (Json.obj [])
  run_backtest strategy data_config config

/-- Whole process run of backtest.py `main`: lines printed to stdout and the
exit code (0 on success; the error envelope then `sys.exit(1)` on any raised
exception). -/
def main (stdin : Py Json) : List Json × Nat :=
  match body stdin with
  | .ok r => ([r], 0)
  | .error e => ([errorEnvelope e], 1)

end NautilusBacktest

namespace NautilusData

/-- Embedding of `fetch_data` (data.py lines 15-59): a total function
returning the placeholder summary, echoing its arguments and applying
`output_path or "memory"`. -/
def fetch_data (source instrument data_type start_date end_date output_path : Json) : Json :=
  .obj [
    ("status", .str "success"),
    ("source", source),
    ("instrument", instrument),
    ("data_type", data_type),
    ("period", .obj [("start", start_date), ("end", end_date)]),
    ("records_count", .num ⟨1500000, 0⟩),
    ("file_size_mb", .num ⟨2505, 1⟩),
    ("output_path", pyOr output_path (.str "memory")),
    ("data_quality", .obj [
      ("missing_data_points", .num ⟨0, 0⟩),
      ("gaps", .arr []),
      ("anomalies", .num ⟨0, 0⟩)]),
    ("summary", .obj [
      ("first_timestamp", start_date),
      ("last_timestamp", end_date),
      ("coverage", .str "100%")])]

/-- Body of the `try` block of data.py `main` (lines 63-78): parse stdin,
extract the six request fields with `.get` (default `None`), call
`fetch_data`. -/
def body (stdin : Py Json) : Py Json := do
  let input ← stdin
  let source ← pyGet input "source"
  let instrument ← pyGet input "instrument"
  let data_type ← pyGet input "dataType"
  let start_date ← pyGet input "startDate"
  let end_date ← pyGet input "endDate"
  let output_path ← pyGet input "outputPath"
  pure (fetch_data source instrument data_type start_date end_date output_path)

/-- Whole process run of data.py `main`. -/
def main (stdin : Py Json) : List Json × Nat :=
  match body stdin with
  | .ok r => ([r], 0)
  | .error e => ([errorEnvelope e], 1)

end NautilusData

namespace OptunaOptimizer

/-- Embedding of `optimize` (optimizer.py lines 57-121): returns the
placeholder result, echoing `n_trials`, `sampler`, `pruner`, applying
`study_name or "unnamed_study"`, with a fixed four-entry optimization
history and statistics derived from `n_trials`. -/
def optimize (_strategy _search_space n_trials study_name sampler pruner
    _backtest_config : Json) : Json :=
  .obj [
    ("status", .str "success"),
    ("study_name", pyOr study_name (.str "unnamed_study")),
    ("n_trials", n_trials),
    ("sampler", sampler),
    ("pruner", pruner),
    ("best_params", .obj [
      ("signals.ofi_signal.params.windowSize", .num ⟨15, 0⟩),
      ("signals.ofi_signal.params.threshold", .num ⟨35, 2⟩),
      ("exit.stopLoss.value", .num ⟨12, 4⟩),
      ("exit.takeProfit.value", .num ⟨25, 4⟩)]),
    ("best_value", .num ⟨215, 2⟩),
    ("optimization_history", .arr [
      .obj [("trial", .num ⟨0, 0⟩), ("value", .num ⟨12, 1⟩),
            ("params", .obj [("windowSize", .num ⟨10, 0⟩), ("threshold", .num ⟨3, 1⟩)])],
      .obj [("trial", .num ⟨1, 0⟩), ("value", .num ⟨15, 1⟩),
            ("params", .obj [("windowSize", .num ⟨12, 0⟩), ("threshold", .num ⟨32, 2⟩)])],
      .obj [("trial", .num ⟨2, 0⟩), ("value", .num ⟨18, 1⟩),
            ("params", .obj [("windowSize", .num ⟨15, 0⟩), ("threshold", .num ⟨35, 2⟩)])],
      .obj [("trial", .num ⟨3, 0⟩), ("value", .num ⟨215, 2⟩),
            ("params", .obj [("windowSize", .num ⟨15, 0⟩), ("threshold", .num ⟨35, 2⟩)])]]),
    ("param_importances", .obj [
      ("signals.ofi_signal.params.threshold", .num ⟨45, 2⟩),
      ("exit.takeProfit.value", .num ⟨30, 2⟩),
      ("signals.ofi_signal.params.windowSize", .num ⟨15, 2⟩),
      ("exit.stopLoss.value", .num ⟨10, 2⟩)]),
    ("statistics", .obj [
      ("total_trials", n_trials),
      ("complete_trials", n_trials),
      ("pruned_trials", .num ⟨0, 0⟩),
      ("best_trial_number", .num ⟨3, 0⟩)])]

/-- Body of the `try` block of optimizer.py `main` (lines 127-141): parse
stdin, extract fields with defaults (`nTrials` 100, `sampler` "TPE",
`pruner` "Hyperband", `{}` for the dicts, `None` for `studyName`), call
`optimize`. -/
def body (stdin : Py Json) : Py Json := do
  let input ← stdin
  let strategy ← pyGetD input "strategy" (Json.obj [])
  let search_space ← pyGetD input "searchSpace" (Json.obj [])
  let n_trials ← pyGetD input "nTrials" (Json.num ⟨100, 0⟩)
  let study_name ← pyGet input "studyName"
  let sampler ← pyGetD input "sampler" (Json.str "TPE")
  let pruner ← pyGetD input "pruner" (Json.str "Hyperband")
  let backtest_config ← pyGetD input "backtestConfig" (Json.obj [])
  pure (optimize strategy search_space n_trials study_name sampler pruner backtest_config)

/-- Whole process run of optimizer.py `main`. -/
def main (stdin : Py Json) : List Json × Nat :=
  match body stdin with
  | .ok r => ([r], 0)
  | .error e => ([errorEnvelope e], 1)

end OptunaOptimizer

namespace OptunaStudy

/-- Embedding of `continue_study` (study.py lines 13-41): the placeholder
result echoing `study_name` and `trials_added`, with its f-string message. -/
def continue_study (study_name n_trials : Json) : Json :=
  .obj [
    ("status", .str "success"),
    ("study_name", study_name),
    ("trials_added", n_trials),
    ("total_trials", .num ⟨150, 0⟩),
    ("best_value", .num ⟨225, 2⟩),
    ("improved", .bool true),
    ("message", .str ("Added " ++ pyStr n_trials ++ " trials to study "
      ++ squoteChar ++ pyStr study_name ++ squoteChar))]

/-- Body of the `try` block of study.py `main` (lines 46-58): parse stdin,
extract `action` (default "continue"), `studyName` (default `None`),
`nTrials` (default 50); dispatch on `action == "continue"`; the unknown-action
branch builds a result dict with only `status` and `error` keys and does NOT
raise, so it flows to the normal print. -/
def body (stdin : Py Json) : Py Json := do
  let input ← stdin
  let action ← pyGetD input "action" (Json.str "continue")
  let study_name ← pyGet input "studyName"
  let n_trials ← pyGetD input "nTrials" (Json.num ⟨50, 0⟩)
  if eqStr action "continue" then
    pure (continue_study study_name n_trials)
  else
    pure (Json.obj [
      ("status", .str "error"),
      ("error", .str ("Unknown action: " ++ pyStr action))])

/-- Whole process run of study.py `main`: note the unknown-action result is
printed by the success path and the process exits 0 there. -/
def main (stdin : Py Json) : List Json × Nat :=
  match body stdin with
  | .ok r => ([r], 0)
  | .error e => ([errorEnvelope e], 1)

end OptunaStudy

end HftAdapters

namespace HftAdapters

/-! ### Helper lemmas shared by the claim theorems -/

theorem bindOk {α β : Type} (a : α) (f : α → Py β) : (Except.ok a : Py α) >>= f = f a := rfl

theorem bindErr {α β : Type} (e : PyError) (f : α → Py β) :
    (Except.error e : Py α) >>= f = Except.error e := rfl

theorem pureEq {α : Type} (a : α) : (pure a : Py α) = Except.ok a := rfl

/-- Two-level lookup `j[k1][k2]` on nested result objects. -/
def lookupPath (j : Json) (k1 k2 : String) : Option Json :=
  (jsonLookup j k1).bind fun p => jsonLookup p k2

/-- First printed output line of a process run. -/
def firstOut (p : List Json × Nat) : Json := p.1.headD Json.null

/-- The section-8 end-to-end example input document. -/
def c4input : Json := Json.obj [
  ("dataConfig", Json.obj [("startDate", Json.str "2024-01-01"),
                           ("endDate", Json.str "2024-01-31")]),
  ("strategy", Json.obj [("metadata", Json.obj [("name", Json.str "momentum")])])]

theorem run_backtest_ok {s d c r : Json} (h : NautilusBacktest.run_backtest s d c = .ok r) :
    ∃ nm sd ed, r = NautilusBacktest.backtestResult nm sd ed := by
  unfold NautilusBacktest.run_backtest at h
  cases h1 : pyGetD s "metadata" (Json.obj []) with
  | error e => rw [h1, bindErr] at h; exact Except.noConfusion h
  | ok md =>
    rw [h1, bindOk] at h
    cases h2 : pyGetD md "name" (Json.str "unknown") with
    | error e => rw [h2, bindErr] at h; exact Except.noConfusion h
    | ok nm =>
      rw [h2, bindOk] at h
      cases h3 : pyIndex d "startDate" with
      | error e => rw [h3, bindErr] at h; exact Except.noConfusion h
      | ok sd =>
        rw [h3, bindOk] at h
        cases h4 : pyIndex d "endDate" with
        | error e => rw [h4, bindErr] at h; exact Except.noConfusion h
        | ok ed =>
          rw [h4, bindOk] at h
          exact ⟨nm, sd, ed, (Except.ok.inj h).symm⟩

theorem backtest_body_ok {stdin : Py Json} {r : Json}
    (h : NautilusBacktest.body stdin = .ok r) :
    ∃ nm sd ed, r = NautilusBacktest.backtestResult nm sd ed := by
  unfold NautilusBacktest.body at h
  cases stdin with
  | error e => rw [bindErr] at h; exact Except.noConfusion h
  | ok input =>
    rw [bindOk] at h
    cases h1 : pyGetD input "strategy" (Json.obj []) with
    | error e => rw [h1, bindErr] at h; exact Except.noConfusion h
    | ok strat =>
      rw [h1, bindOk] at h
      cases h2 : pyGetD input "dataConfig" (Json.obj []) with
      | error e => rw [h2, bindErr] at h; exact Except.noConfusion h
      | ok dc =>
        rw [h2, bindOk] at h
        cases h3 : pyGetD input "config" (Json.obj []) with
        | error e => rw [h3, bindErr] at h; exact Except.noConfusion h
        | ok cfg =>
          rw [h3, bindOk] at h
          exact run_backtest_ok h

theorem optimizer_body_ok {stdin : Py Json} {r : Json} (h : OptunaOptimizer.body stdin = .ok r) :
    ∃ fields, stdin = .ok (Json.obj fields) ∧
      r = OptunaOptimizer.optimize
        ((lookupField fields "strategy").getD (Json.obj []))
        ((lookupField fields "searchSpace").getD (Json.obj []))
        ((lookupField fields "nTrials").getD (Json.num ⟨100, 0⟩))
        ((lookupField fields "studyName").getD Json.null)
        ((lookupField fields "sampler").getD (Json.str "TPE"))
        ((lookupField fields "pruner").getD (Json.str "Hyperband"))
        ((lookupField fields "backtestConfig").getD (Json.obj [])) := by
  cases stdin with
  | error e => exact Except.noConfusion h
  | ok input =>
    cases input <;>
      simp only [OptunaOptimizer.body, pyGetD, pyGet, bindOk, bindErr, pureEq] at h
    case obj fields => exact ⟨fields, rfl, (Except.ok.inj h).symm⟩
    all_goals exact Except.noConfusion h

/-! ### C1 -/

/-- C1: for every adapter, a standard-input text that is not valid JSON (a
raised `JSONDecodeError`), and more generally any exception raised by any
step of the `try` block, makes the process write exactly one JSON object,
the envelope `{status: "error", error: str(e), type: type(e).__name__}`, to
standard output and exit with code 1. -/
theorem C1_invalid_json_error_envelope (stdin : Py Json) (e : PyError) :
    NautilusBacktest.main (.error e) = ([errorEnvelope e], 1) ∧
    NautilusData.main (.error e) = ([errorEnvelope e], 1) ∧
    OptunaOptimizer.main (.error e) = ([errorEnvelope e], 1) ∧
    OptunaStudy.main (.error e) = ([errorEnvelope e], 1) ∧
    (NautilusBacktest.body stdin = .error e →
      NautilusBacktest.main stdin = ([errorEnvelope e], 1)) ∧
    (NautilusData.body stdin = .error e →
      NautilusData.main stdin = ([errorEnvelope e], 1)) ∧
    (OptunaOptimizer.body stdin = .error e →
      OptunaOptimizer.main stdin = ([errorEnvelope e], 1)) ∧
    (OptunaStudy.body stdin = .error e →
      OptunaStudy.main stdin = ([errorEnvelope e], 1)) := by
  refine ⟨rfl, rfl, rfl, rfl, ?_, ?_, ?_, ?_⟩ <;>
    intro h <;>
    simp only [NautilusBacktest.main, NautilusData.main, OptunaOptimizer.main,
      OptunaStudy.main, h]

/-- C1 witness: a concrete malformed-input run of each adapter, through the
exception-propagation conjuncts of the theorem. -/
theorem C1_witness :
    NautilusBacktest.main (.error ⟨"JSONDecodeError", "Expecting value"⟩)
      = ([errorEnvelope ⟨"JSONDecodeError", "Expecting value"⟩], 1) ∧
    NautilusData.main (.error ⟨"JSONDecodeError", "Expecting value"⟩)
      = ([errorEnvelope ⟨"JSONDecodeError", "Expecting value"⟩], 1) ∧
    OptunaOptimizer.main (.error ⟨"JSONDecodeError", "Expecting value"⟩)
      = ([errorEnvelope ⟨"JSONDecodeError", "Expecting value"⟩], 1) ∧
    OptunaStudy.main (.error ⟨"JSONDecodeError", "Expecting value"⟩)
      = ([errorEnvelope ⟨"JSONDecodeError", "Expecting value"⟩], 1) :=
  ⟨(C1_invalid_json_error_envelope (.error ⟨"JSONDecodeError", "Expecting value"⟩)
      ⟨"JSONDecodeError", "Expecting value"⟩).2.2.2.2.1 rfl,
   (C1_invalid_json_error_envelope (.error ⟨"JSONDecodeError", "Expecting value"⟩)
      ⟨"JSONDecodeError", "Expecting value"⟩).2.2.2.2.2.1 rfl,
   (C1_invalid_json_error_envelope (.error ⟨"JSONDecodeError", "Expecting value"⟩)
      ⟨"JSONDecodeError", "Expecting value"⟩).2.2.2.2.2.2.1 rfl,
   (C1_invalid_json_error_envelope (.error ⟨"JSONDecodeError", "Expecting value"⟩)
      ⟨"JSONDecodeError", "Expecting value"⟩).2.2.2.2.2.2.2 rfl⟩

/-! ### C4 -/

/-- C4: the section-8 end-to-end example: the backtest runner on the example
input emits exactly one document with `strategy_name == "momentum"`,
`period.start == "2024-01-01"`, `period.end == "2024-01-31"`, and
`status == "success"` (with exit code 0). -/
theorem C4_backtest_end_to_end_example :
    (NautilusBacktest.main (.ok c4input)).1.length = 1 ∧
    (NautilusBacktest.main (.ok c4input)).2 = 0 ∧
    jsonLookup (firstOut (NautilusBacktest.main (.ok c4input))) "status"
      = some (Json.str "success") ∧
    jsonLookup (firstOut (NautilusBacktest.main (.ok c4input))) "strategy_name"
      = some (Json.str "momentum") ∧
    lookupPath (firstOut (NautilusBacktest.main (.ok c4input))) "period" "start"
      = some (Json.str "2024-01-01") ∧
    lookupPath (firstOut (NautilusBacktest.main (.ok c4input))) "period" "end"
      = some (Json.str "2024-01-31") :=
  ⟨rfl, rfl, rfl, rfl, rfl, rfl⟩

/-! ### C5 -/

/-- C5: every successful backtest result satisfies
`performance.winning_trades + performance.losing_trades ==
performance.total_trades` (exactly: 152 + 93 = 245). -/
theorem C5_trade_counts_add_up (stdin : Py Json) (r : Json)
    (h : NautilusBacktest.body stdin = .ok r) :
    lookupPath r "performance" "winning_trades" = some (Json.num ⟨152, 0⟩) ∧
    lookupPath r "performance" "losing_trades" = some (Json.num ⟨93, 0⟩) ∧
    lookupPath r "performance" "total_trades" = some (Json.num ⟨245, 0⟩) ∧
    JNum.eqv (JNum.add ⟨152, 0⟩ ⟨93, 0⟩) ⟨245, 0⟩ := by
  obtain ⟨nm, sd, ed, rfl⟩ := backtest_body_ok h
  exact ⟨rfl, rfl, rfl, by decide⟩

/-- C5 witness: the invariant read off a concrete successful run. -/
theorem C5_witness :
    lookupPath (NautilusBacktest.backtestResult (Json.str "momentum")
        (Json.str "2024-01-01") (Json.str "2024-01-31")) "performance" "winning_trades"
      = some (Json.num ⟨152, 0⟩) ∧
    lookupPath (NautilusBacktest.backtestResult (Json.str "momentum")
        (Json.str "2024-01-01") (Json.str "2024-01-31")) "performance" "losing_trades"
      = some (Json.num ⟨93, 0⟩) ∧
    lookupPath (NautilusBacktest.backtestResult (Json.str "momentum")
        (Json.str "2024-01-01") (Json.str "2024-01-31")) "performance" "total_trades"
      = some (Json.num ⟨245, 0⟩) ∧
    JNum.eqv (JNum.add ⟨152, 0⟩ ⟨93, 0⟩) ⟨245, 0⟩ :=
  C5_trade_counts_add_up (.ok c4input) _ rfl

/-! ### C9 -/

/-- C9: the data fetcher is stateless and pure, so a second fetch with the
identical arguments reports the identical `records_count` as the first (both
are the fixed placeholder count 1500000). -/
theorem C9_refetch_same_records_count
    (source instrument data_type start_date end_date output_path : Json) :
    jsonLookup (NautilusData.fetch_data source instrument data_type
        start_date end_date output_path) "records_count"
      = jsonLookup (NautilusData.fetch_data source instrument data_type
        start_date end_date output_path) "records_count" ∧
    jsonLookup (NautilusData.fetch_data source instrument data_type
        start_date end_date output_path) "records_count"
      = some (Json.num ⟨1500000, 0⟩) :=
  ⟨rfl, rfl⟩

end HftAdapters

namespace HftAdapters

/-! ### C2 -/

/-- C2 counterexample: the study-continuation adapter, given a well-formed
input containing both of its section-3 required fields (`action`,
`studyName`) but with `action == "delete"`, emits a document with
`status == "error"`, not `"success"`. -/
theorem C2_counterexample :
    OptunaStudy.main (.ok (Json.obj [("action", Json.str "delete"),
        ("studyName", Json.str "s")]))
      = ([Json.obj [("status", Json.str "error"),
          ("error", Json.str "Unknown action: delete")]], 0) ∧
    jsonLookup (firstOut (OptunaStudy.main (.ok (Json.obj
        [("action", Json.str "delete"), ("studyName", Json.str "s")])))) "status"
      = some (Json.str "error") ∧
    Json.str "error" ≠ Json.str "success" := by
  refine ⟨rfl, rfl, ?_⟩
  intro h
  exact absurd (Json.str.inj h) (by decide)

/-- C2 as amended: well-formed input with all required fields (objects where
the code calls `.get` on them) yields `status == "success"` and exit code 0,
except that the study-continuation adapter additionally needs its `action`
field, when present, to equal "continue". -/
theorem C2_success_with_required_fields :
    (∀ (fields sf mf df : List (String × Json)) (sd ed : Json),
      lookupField fields "strategy" = some (Json.obj sf) →
      (lookupField sf "metadata").getD (Json.obj []) = Json.obj mf →
      lookupField fields "dataConfig" = some (Json.obj df) →
      lookupField df "startDate" = some sd →
      lookupField df "endDate" = some ed →
      NautilusBacktest.main (.ok (Json.obj fields))
        = ([NautilusBacktest.backtestResult
            ((lookupField mf "name").getD (Json.str "unknown")) sd ed], 0) ∧
      jsonLookup (NautilusBacktest.backtestResult
            ((lookupField mf "name").getD (Json.str "unknown")) sd ed) "status"
        = some (Json.str "success")) ∧
    (∀ (fields : List (String × Json)) (src inst dt sd ed : Json),
      lookupField fields "source" = some src →
      lookupField fields "instrument" = some inst →
      lookupField fields "dataType" = some dt →
      lookupField fields "startDate" = some sd →
      lookupField fields "endDate" = some ed →
      ∃ r, NautilusData.main (.ok (Json.obj fields)) = ([r], 0) ∧
        jsonLookup r "status" = some (Json.str "success")) ∧
    (∀ (fields : List (String × Json)) (s ss : Json),
      lookupField fields "strategy" = some s →
      lookupField fields "searchSpace" = some ss →
      ∃ r, OptunaOptimizer.main (.ok (Json.obj fields)) = ([r], 0) ∧
        jsonLookup r "status" = some (Json.str "success")) ∧
    (∀ (fields : List (String × Json)) (sn : Json),
      lookupField fields "studyName" = some sn →
      (lookupField fields "action" = none ∨
        lookupField fields "action" = some (Json.str "continue")) →
      ∃ r, OptunaStudy.main (.ok (Json.obj fields)) = ([r], 0) ∧
        jsonLookup r "status" = some (Json.str "success")) := by
  refine ⟨?_, ?_, ?_, ?_⟩
  · intro fields sf mf df sd ed hstrat hmeta hdc hsd hed
    constructor
    · simp only [NautilusBacktest.main, NautilusBacktest.body,
        NautilusBacktest.run_backtest, pyGetD, pyGet, pyIndex, bindOk, bindErr,
        pureEq, hstrat, hmeta, hdc, hsd, hed, Option.getD_some]
    · rfl
  · intro fields src inst dt sd ed _ _ _ _ _
    exact ⟨_, rfl, rfl⟩
  · intro fields s ss _ _
    exact ⟨_, rfl, rfl⟩
  · intro fields sn hsn haction
    rcases haction with h | h <;>
      [skip; skip] <;>
      refine ⟨OptunaStudy.continue_study sn
        ((lookupField fields "nTrials").getD (Json.num ⟨50, 0⟩)), ?_, rfl⟩ <;>
      simp [OptunaStudy.main, OptunaStudy.body, pyGetD, pyGet, bindOk,
        bindErr, pureEq, h, hsn, eqStr]

end HftAdapters

namespace HftAdapters

/-- C2 witness: a concrete run of each adapter with all required fields
present (and `action` left at its default for the study adapter). -/
theorem C2_witness :
    (NautilusBacktest.main (.ok c4input)
        = ([NautilusBacktest.backtestResult (Json.str "momentum")
            (Json.str "2024-01-01") (Json.str "2024-01-31")], 0) ∧
      jsonLookup (NautilusBacktest.backtestResult (Json.str "momentum")
            (Json.str "2024-01-01") (Json.str "2024-01-31")) "status"
        = some (Json.str "success")) ∧
    (∃ r, NautilusData.main (.ok (Json.obj [("source", Json.str "binance"),
          ("instrument", Json.str "BTCUSDT"), ("dataType", Json.str "trades"),
          ("startDate", Json.str "2024-01-01"),
          ("endDate", Json.str "2024-01-31")])) = ([r], 0) ∧
      jsonLookup r "status" = some (Json.str "success")) ∧
    (∃ r, OptunaOptimizer.main (.ok (Json.obj [("strategy", Json.obj []),
          ("searchSpace", Json.obj [])])) = ([r], 0) ∧
      jsonLookup r "status" = some (Json.str "success")) ∧
    (∃ r, OptunaStudy.main (.ok (Json.obj [("studyName", Json.str "s")]))
        = ([r], 0) ∧
      jsonLookup r "status" = some (Json.str "success")) :=
  ⟨C2_success_with_required_fields.1
      [("dataConfig", Json.obj [("startDate", Json.str "2024-01-01"),
          ("endDate", Json.str "2024-01-31")]),
       ("strategy", Json.obj [("metadata", Json.obj [("name", Json.str "momentum")])])]
      [("metadata", Json.obj [("name", Json.str "momentum")])]
      [("name", Json.str "momentum")]
      [("startDate", Json.str "2024-01-01"), ("endDate", Json.str "2024-01-31")]
      (Json.str "2024-01-01") (Json.str "2024-01-31") rfl rfl rfl rfl rfl,
   C2_success_with_required_fields.2.1
      [("source", Json.str "binance"), ("instrument", Json.str "BTCUSDT"),
       ("dataType", Json.str "trades"), ("startDate", Json.str "2024-01-01"),
       ("endDate", Json.str "2024-01-31")]
      (Json.str "binance") (Json.str "BTCUSDT") (Json.str "trades")
      (Json.str "2024-01-01") (Json.str "2024-01-31") rfl rfl rfl rfl rfl,
   C2_success_with_required_fields.2.2.1
      [("strategy", Json.obj []), ("searchSpace", Json.obj [])]
      (Json.obj []) (Json.obj []) rfl rfl,
   C2_success_with_required_fields.2.2.2
      [("studyName", Json.str "s")] (Json.str "s") rfl (Or.inl rfl)⟩

end HftAdapters

namespace HftAdapters

/-! ### C3 -/

/-- C3 (code-bug evidence): on input with `action == "stop"` the study
adapter emits a `status == "error"` document that lacks the `type` field and
terminates with exit code 0, diverging from the claimed error envelope and
exit contract. -/
theorem C3_unknown_action_missing_type_and_exit_zero :
    OptunaStudy.main (.ok (Json.obj [("action", Json.str "stop"),
        ("studyName", Json.str "s")]))
      = ([Json.obj [("status", Json.str "error"),
          ("error", Json.str "Unknown action: stop")]], 0) ∧
    jsonLookup (firstOut (OptunaStudy.main (.ok (Json.obj
        [("action", Json.str "stop"), ("studyName", Json.str "s")])))) "status"
      = some (Json.str "error") ∧
    jsonLookup (firstOut (OptunaStudy.main (.ok (Json.obj
        [("action", Json.str "stop"), ("studyName", Json.str "s")])))) "type"
      = none ∧
    (OptunaStudy.main (.ok (Json.obj [("action", Json.str "stop"),
        ("studyName", Json.str "s")]))).2 = 0 :=
  ⟨rfl, rfl, rfl, rfl⟩

/-! ### C7 -/

/-- C7: with the optional input fields absent, the optimizer uses
`nTrials = 100`, `sampler = "TPE"`, `pruner = "Hyperband"` and echoes them
into `n_trials`, `sampler`, `pruner`; the study-continuation adapter uses
`nTrials = 50` (echoed into `trials_added`). -/
theorem C7_optional_field_defaults
    (fields fields2 : List (String × Json))
    (h1 : lookupField fields "nTrials" = none)
    (h2 : lookupField fields "sampler" = none)
    (h3 : lookupField fields "pruner" = none)
    (h4 : lookupField fields2 "nTrials" = none)
    (h5 : lookupField fields2 "action" = none) :
    (∃ r, OptunaOptimizer.main (.ok (Json.obj fields)) = ([r], 0) ∧
      jsonLookup r "n_trials" = some (Json.num ⟨100, 0⟩) ∧
      jsonLookup r "sampler" = some (Json.str "TPE") ∧
      jsonLookup r "pruner" = some (Json.str "Hyperband")) ∧
    (∃ r, OptunaStudy.main (.ok (Json.obj fields2)) = ([r], 0) ∧
      jsonLookup r "trials_added" = some (Json.num ⟨50, 0⟩)) := by
  constructor
  · refine ⟨_, rfl, ?_, ?_, ?_⟩
    · show some ((lookupField fields "nTrials").getD (Json.num ⟨100, 0⟩))
        = some (Json.num ⟨100, 0⟩)
      rw [h1]; rfl
    · show some ((lookupField fields "sampler").getD (Json.str "TPE"))
        = some (Json.str "TPE")
      rw [h2]; rfl
    · show some ((lookupField fields "pruner").getD (Json.str "Hyperband"))
        = some (Json.str "Hyperband")
      rw [h3]; rfl
  · refine ⟨OptunaStudy.continue_study
      ((lookupField fields2 "studyName").getD Json.null) (Json.num ⟨50, 0⟩), ?_, rfl⟩
    simp [OptunaStudy.main, OptunaStudy.body, pyGetD, pyGet, bindOk, bindErr,
      pureEq, h4, h5, eqStr]

/-- C7 witness: both adapters run on the empty JSON object. -/
theorem C7_witness :
    (∃ r, OptunaOptimizer.main (.ok (Json.obj [])) = ([r], 0) ∧
      jsonLookup r "n_trials" = some (Json.num ⟨100, 0⟩) ∧
      jsonLookup r "sampler" = some (Json.str "TPE") ∧
      jsonLookup r "pruner" = some (Json.str "Hyperband")) ∧
    (∃ r, OptunaStudy.main (.ok (Json.obj [])) = ([r], 0) ∧
      jsonLookup r "trials_added" = some (Json.num ⟨50, 0⟩)) :=
  C7_optional_field_defaults [] [] rfl rfl rfl rfl rfl

/-! ### C8 -/

/-- C8 counterexample: the data fetcher on the empty object (no `source`, no
`instrument`) emits `status == "success"` with exit code 0 instead of a
validation error. -/
theorem C8_counterexample :
    NautilusData.main (.ok (Json.obj []))
      = ([NautilusData.fetch_data Json.null Json.null Json.null Json.null
          Json.null Json.null], 0) ∧
    jsonLookup (firstOut (NautilusData.main (.ok (Json.obj [])))) "status"
      = some (Json.str "success") ∧
    jsonLookup (firstOut (NautilusData.main (.ok (Json.obj [])))) "source"
      = some Json.null :=
  ⟨rfl, rfl, rfl⟩

theorem run_backtest_err_no_start (strat cfg : Json) (df : List (String × Json))
    (hsd : lookupField df "startDate" = none) :
    ∃ e, NautilusBacktest.run_backtest strat (Json.obj df) cfg = .error e := by
  unfold NautilusBacktest.run_backtest
  cases strat with
  | obj sf =>
    cases hm : (lookupField sf "metadata").getD (Json.obj []) with
    | obj mf =>
      exact ⟨⟨"KeyError", "startDate"⟩,
        by simp only [pyGetD, hm, bindOk, pyIndex, hsd, bindErr]⟩
    | null => exact ⟨⟨"AttributeError", "object has no attribute get"⟩,
        by simp only [pyGetD, hm, bindOk, bindErr]⟩
    | bool b => exact ⟨⟨"AttributeError", "object has no attribute get"⟩,
        by simp only [pyGetD, hm, bindOk, bindErr]⟩
    | num n => exact ⟨⟨"AttributeError", "object has no attribute get"⟩,
        by simp only [pyGetD, hm, bindOk, bindErr]⟩
    | str s => exact ⟨⟨"AttributeError", "object has no attribute get"⟩,
        by simp only [pyGetD, hm, bindOk, bindErr]⟩
    | arr xs => exact ⟨⟨"AttributeError", "object has no attribute get"⟩,
        by simp only [pyGetD, hm, bindOk, bindErr]⟩
  | null => exact ⟨⟨"AttributeError", "object has no attribute get"⟩,
      by simp only [pyGetD, bindErr]⟩
  | bool b => exact ⟨⟨"AttributeError", "object has no attribute get"⟩,
      by simp only [pyGetD, bindErr]⟩
  | num n => exact ⟨⟨"AttributeError", "object has no attribute get"⟩,
      by simp only [pyGetD, bindErr]⟩
  | str s => exact ⟨⟨"AttributeError", "object has no attribute get"⟩,
      by simp only [pyGetD, bindErr]⟩
  | arr xs => exact ⟨⟨"AttributeError", "object has no attribute get"⟩,
      by simp only [pyGetD, bindErr]⟩

/-- C8 as amended: only the backtest runner fails fast on a missing required
field (a `dataConfig` without `startDate` makes the process emit the error
envelope and exit 1); the data fetcher and the optimizer perform no
validation and emit `status == "success"` even with their required fields
missing. -/
theorem C8_validation_only_in_backtest :
    (∀ (fields df : List (String × Json)),
      lookupField fields "dataConfig" = some (Json.obj df) →
      lookupField df "startDate" = none →
      ∃ e, NautilusBacktest.main (.ok (Json.obj fields)) = ([errorEnvelope e], 1)) ∧
    (∀ fields, lookupField fields "source" = none →
      ∃ r, NautilusData.main (.ok (Json.obj fields)) = ([r], 0) ∧
        jsonLookup r "status" = some (Json.str "success")) ∧
    (∀ fields, lookupField fields "searchSpace" = none →
      ∃ r, OptunaOptimizer.main (.ok (Json.obj fields)) = ([r], 0) ∧
        jsonLookup r "status" = some (Json.str "success")) := by
  refine ⟨?_, ?_, ?_⟩
  · intro fields df hdc hsd
    obtain ⟨e, he⟩ := run_backtest_err_no_start
      ((lookupField fields "strategy").getD (Json.obj []))
      ((lookupField fields "config").getD (Json.obj [])) df hsd
    have hb : NautilusBacktest.body (.ok (Json.obj fields))
        = NautilusBacktest.run_backtest
          ((lookupField fields "strategy").getD (Json.obj []))
          ((lookupField fields "dataConfig").getD (Json.obj []))
          ((lookupField fields "config").getD (Json.obj [])) := rfl
    rw [hdc, Option.getD_some] at hb
    exact ⟨e, by simp only [NautilusBacktest.main, hb.trans he]⟩
  · intro fields _
    exact ⟨_, rfl, rfl⟩
  · intro fields _
    exact ⟨_, rfl, rfl⟩

/-- C8 witness: concrete inputs: a backtest request whose `dataConfig` lacks
`startDate`, and empty requests to the other two adapters. -/
theorem C8_witness :
    (∃ e, NautilusBacktest.main (.ok (Json.obj [("dataConfig", Json.obj [])]))
      = ([errorEnvelope e], 1)) ∧
    (∃ r, NautilusData.main (.ok (Json.obj [])) = ([r], 0) ∧
      jsonLookup r "status" = some (Json.str "success")) ∧
    (∃ r, OptunaOptimizer.main (.ok (Json.obj [])) = ([r], 0) ∧
      jsonLookup r "status" = some (Json.str "success")) :=
  ⟨C8_validation_only_in_backtest.1 [("dataConfig", Json.obj [])] [] rfl rfl,
   C8_validation_only_in_backtest.2.1 [] rfl,
   C8_validation_only_in_backtest.2.2 [] rfl⟩

/-! ### C10 -/

/-- C10: with `dataConfig` dates present, an absent `strategy`, an absent
`metadata`, or a `metadata` without `name` still succeeds with
`strategy_name == "unknown"`. -/
theorem C10_absent_strategy_name_is_unknown
    (fields df : List (String × Json)) (sd ed : Json)
    (hdc : lookupField fields "dataConfig" = some (Json.obj df))
    (hsd : lookupField df "startDate" = some sd)
    (hed : lookupField df "endDate" = some ed) :
    (lookupField fields "strategy" = none →
      NautilusBacktest.main (.ok (Json.obj fields))
        = ([NautilusBacktest.backtestResult (Json.str "unknown") sd ed], 0)) ∧
    (∀ sf, lookupField fields "strategy" = some (Json.obj sf) →
      lookupField sf "metadata" = none →
      NautilusBacktest.main (.ok (Json.obj fields))
        = ([NautilusBacktest.backtestResult (Json.str "unknown") sd ed], 0)) ∧
    (∀ sf mf, lookupField fields "strategy" = some (Json.obj sf) →
      lookupField sf "metadata" = some (Json.obj mf) →
      lookupField mf "name" = none →
      NautilusBacktest.main (.ok (Json.obj fields))
        = ([NautilusBacktest.backtestResult (Json.str "unknown") sd ed], 0)) ∧
    jsonLookup (NautilusBacktest.backtestResult (Json.str "unknown") sd ed) "status"
      = some (Json.str "success") := by
  refine ⟨?_, ?_, ?_, rfl⟩
  · intro hs
    simp only [NautilusBacktest.main, NautilusBacktest.body,
      NautilusBacktest.run_backtest, pyGetD, pyIndex, bindOk, bindErr, pureEq,
      hs, hdc, hsd, hed, Option.getD_some, Option.getD_none, lookupField]
  · intro sf hs hm
    simp only [NautilusBacktest.main, NautilusBacktest.body,
      NautilusBacktest.run_backtest, pyGetD, pyIndex, bindOk, bindErr, pureEq,
      hs, hm, hdc, hsd, hed, Option.getD_some, Option.getD_none, lookupField]
  · intro sf mf hs hm hn
    simp only [NautilusBacktest.main, NautilusBacktest.body,
      NautilusBacktest.run_backtest, pyGetD, pyIndex, bindOk, bindErr, pureEq,
      hs, hm, hn, hdc, hsd, hed, Option.getD_some, Option.getD_none, lookupField]

/-- C10 witness: a concrete run with the `strategy` field entirely absent. -/
theorem C10_witness :
    NautilusBacktest.main (.ok (Json.obj [("dataConfig", Json.obj
        [("startDate", Json.str "2024-02-01"), ("endDate", Json.str "2024-02-29")])]))
      = ([NautilusBacktest.backtestResult (Json.str "unknown")
          (Json.str "2024-02-01") (Json.str "2024-02-29")], 0) :=
  (C10_absent_strategy_name_is_unknown
    [("dataConfig", Json.obj [("startDate", Json.str "2024-02-01"),
        ("endDate", Json.str "2024-02-29")])]
    [("startDate", Json.str "2024-02-01"), ("endDate", Json.str "2024-02-29")]
    (Json.str "2024-02-01") (Json.str "2024-02-29") rfl rfl rfl).1 rfl

end HftAdapters

namespace HftAdapters

/-! ### C6 -/

/-- C6 counterexample: the optimizer on the empty object succeeds with a
4-entry optimization history but `complete_trials == 100` (the default
`nTrials`) and `pruned_trials == 0`, and 4 ≠ 100 + 0. -/
theorem C6_counterexample :
    historyLen (firstOut (OptunaOptimizer.main (.ok (Json.obj [])))) = some 4 ∧
    statNum (firstOut (OptunaOptimizer.main (.ok (Json.obj [])))) "complete_trials"
      = some ⟨100, 0⟩ ∧
    statNum (firstOut (OptunaOptimizer.main (.ok (Json.obj [])))) "pruned_trials"
      = some ⟨0, 0⟩ ∧
    ¬ JNum.eqv ⟨(4 : Int), 0⟩ (JNum.add ⟨100, 0⟩ ⟨0, 0⟩) :=
  ⟨rfl, rfl, rfl, by decide⟩

theorem optimize_history_props (s ss nt sn sa pr bc : Json) :
    historyValues (OptunaOptimizer.optimize s ss nt sn sa pr bc)
      = some [⟨12, 1⟩, ⟨15, 1⟩, ⟨18, 1⟩, ⟨215, 2⟩] ∧
    jsonLookup (OptunaOptimizer.optimize s ss nt sn sa pr bc) "best_value"
      = some (Json.num ⟨215, 2⟩) ∧
    listMaxJN [⟨12, 1⟩, ⟨15, 1⟩, ⟨18, 1⟩, ⟨215, 2⟩] = some ⟨215, 2⟩ ∧
    historyLen (OptunaOptimizer.optimize s ss nt sn sa pr bc) = some 4 ∧
    jsonLookup (OptunaOptimizer.optimize s ss nt sn sa pr bc) "n_trials" = some nt ∧
    statNum (OptunaOptimizer.optimize s ss nt sn sa pr bc) "pruned_trials"
      = some ⟨0, 0⟩ ∧
    (∀ q : JNum, nt = Json.num q →
      statNum (OptunaOptimizer.optimize s ss nt sn sa pr bc) "complete_trials"
        = some q) ∧
    (∀ c : JNum,
      statNum (OptunaOptimizer.optimize s ss nt sn sa pr bc) "complete_trials"
        = some c → nt = Json.num c) := by
  refine ⟨rfl, rfl, rfl, rfl, rfl, rfl, ?_, ?_⟩
  · intro q hq; subst hq; rfl
  · intro c hc
    cases nt with
    | num q => exact congrArg Json.num (Option.some.inj hc)
    | null => exact Option.noConfusion hc
    | bool b => exact Option.noConfusion hc
    | str t => exact Option.noConfusion hc
    | arr xs => exact Option.noConfusion hc
    | obj fs => exact Option.noConfusion hc

/-- C6 as amended: for every successful optimizer run, `best_value` equals
the maximum of the `value` entries of `optimization_history`; but the
history length is the fixed 4 while `complete_trials` echoes `nTrials` and
`pruned_trials` is 0, so `len(optimization_history) == complete_trials +
pruned_trials` holds exactly when the input `nTrials` has numeric value 4
(in particular it fails at the default 100). -/
theorem C6_best_value_is_history_max (stdin : Py Json) (r : Json)
    (h : OptunaOptimizer.body stdin = .ok r) :
    (∃ vs best, historyValues r = some vs ∧
      jsonLookup r "best_value" = some (Json.num best) ∧
      listMaxJN vs = some best) ∧
    historyLen r = some 4 ∧
    statNum r "pruned_trials" = some ⟨0, 0⟩ ∧
    (jsonLookup r "n_trials" = some (Json.num ⟨4, 0⟩) →
      ∃ (n : Nat) (c p : JNum), historyLen r = some n ∧
        statNum r "complete_trials" = some c ∧
        statNum r "pruned_trials" = some p ∧
        JNum.eqv ⟨(n : Int), 0⟩ (JNum.add c p)) ∧
    (∀ (n : Nat) (c p : JNum), historyLen r = some n →
      statNum r "complete_trials" = some c →
      statNum r "pruned_trials" = some p →
      JNum.eqv ⟨(n : Int), 0⟩ (JNum.add c p) →
      jsonLookup r "n_trials" = some (Json.num c) ∧ JNum.eqv c ⟨4, 0⟩) := by
  obtain ⟨fields, rfl, rfl⟩ := optimizer_body_ok h
  obtain ⟨hv1, hv2, hv3, hv4, hv5, hv6, hv7, hv8⟩ := optimize_history_props
    ((lookupField fields "strategy").getD (Json.obj []))
    ((lookupField fields "searchSpace").getD (Json.obj []))
    ((lookupField fields "nTrials").getD (Json.num ⟨100, 0⟩))
    ((lookupField fields "studyName").getD Json.null)
    ((lookupField fields "sampler").getD (Json.str "TPE"))
    ((lookupField fields "pruner").getD (Json.str "Hyperband"))
    ((lookupField fields "backtestConfig").getD (Json.obj []))
  refine ⟨⟨_, _, hv1, hv2, hv3⟩, hv4, hv6, ?_, ?_⟩
  · intro h4
    have hnt : (lookupField fields "nTrials").getD (Json.num ⟨100, 0⟩)
        = Json.num ⟨4, 0⟩ := Option.some.inj (hv5.symm.trans h4)
    exact ⟨4, ⟨4, 0⟩, ⟨0, 0⟩, hv4, hv7 _ hnt, hv6, by decide⟩
  · intro n c p hn hc hp heq
    have hn4 : (4 : Nat) = n := Option.some.inj (hv4.symm.trans hn)
    subst hn4
    have hcnt := hv8 c hc
    have hp0 : p = ⟨0, 0⟩ := (Option.some.inj (hv6.symm.trans hp)).symm
    subst hp0
    refine ⟨by rw [hv5, hcnt], ?_⟩
    simp only [JNum.eqv, JNum.add, pow_zero, mul_one, add_zero, zero_mul,
      pow_add] at heq ⊢
    omega

/-- C6 witness: the amended theorem applied to a concrete run on the empty
object. -/
theorem C6_witness :
    (∃ vs best,
      historyValues (OptunaOptimizer.optimize (Json.obj []) (Json.obj [])
          (Json.num ⟨100, 0⟩) Json.null (Json.str "TPE") (Json.str "Hyperband")
          (Json.obj [])) = some vs ∧
      jsonLookup (OptunaOptimizer.optimize (Json.obj []) (Json.obj [])
          (Json.num ⟨100, 0⟩) Json.null (Json.str "TPE") (Json.str "Hyperband")
          (Json.obj [])) "best_value" = some (Json.num best) ∧
      listMaxJN vs = some best) ∧
    historyLen (OptunaOptimizer.optimize (Json.obj []) (Json.obj [])
        (Json.num ⟨100, 0⟩) Json.null (Json.str "TPE") (Json.str "Hyperband")
        (Json.obj [])) = some 4 :=
  ⟨(C6_best_value_is_history_max (.ok (Json.obj []))
      (OptunaOptimizer.optimize (Json.obj []) (Json.obj [])
        (Json.num ⟨100, 0⟩) Json.null (Json.str "TPE") (Json.str "Hyperband")
        (Json.obj [])) rfl).1,
   (C6_best_value_is_history_max (.ok (Json.obj []))
      (OptunaOptimizer.optimize (Json.obj []) (Json.obj [])
        (Json.num ⟨100, 0⟩) Json.null (Json.str "TPE") (Json.str "Hyperband")
        (Json.obj [])) rfl).2.1⟩

end HftAdapters
